import Mathlib

/-!
Shallow embedding of the SmartAmbulanceroutefinder mission/traffic state
machine (src/types.ts and the main App component in src/unnamed/part_000).

The React component keeps its state in `useState` hooks; we collect those
hooks into one `AppState` record and embed each event handler as a pure
function `AppState → … → AppState`.  Event handlers read the hook values
captured at render time (the state as it was when the event was delivered)
and apply their `setX` calls as record updates, so a handler that first
calls `setTrafficState(newState)` and then reads `trafficState` still reads
the pre-event value — exactly the closure semantics of the source.

External and nondeterministic inputs are parameters:
  * `Math.random()` results become explicit rational arguments in `[0,1)`;
  * the awaited `analyzeEmergency` call splits `startMission` into the
    synchronous part before the `await` (`startMissionBegin`) and the
    continuation that runs when the promise resolves (`startMissionResume`);
  * the `setTimeout` continuation in `handleArrival` becomes
    `completedReset`, taking the `targetPos` value captured by the closure;
  * JS numbers are modelled as rationals, `Math.floor` as `Int.floor`,
    `Math.round x` as `⌊x + 1/2⌋`, `Number.prototype.toFixed` as `toFixedQ`,
    and `parseFloat` as `jsParseFloat` (returning `none` for NaN).

Log entries keep the message and kind of the source; the random `id` and
the wall-clock `timestamp` fields are dropped (no claim mentions them).
-/

namespace SmartAmbulance

/-- `AppView` enumeration from src/types.ts. -/
inductive AppView
  | LOGIN
  | DASHBOARD
  | MAP_NAVIGATION
deriving DecidableEq, Repr

/-- `MissionStatus` enumeration from src/types.ts. -/
inductive MissionStatus
  | IDLE
  | CALCULATING
  | ENROUTE_PATIENT
  | AT_PATIENT
  | ENROUTE_HOSPITAL
  | COMPLETED
deriving DecidableEq, Repr

/-- `TrafficLightState` enumeration from src/types.ts. -/
inductive TrafficLightState
  | RED
  | YELLOW
  | GREEN
  | GREEN_CORRIDOR_ACTIVE
deriving DecidableEq, Repr

/-- `Coordinate` from src/types.ts; JS numbers modelled as rationals. -/
structure Coordinate where
  lat : ℚ
  lng : ℚ
deriving DecidableEq, Repr

/-- `EmergencyDetails` from src/types.ts (severity kept as a string). -/
structure EmergencyDetails where
  etype : String
  severity : String
  patientName : String
  description : String
deriving DecidableEq, Repr

/-- The `type` field of `AILog` from src/types.ts. -/
inductive LogType
  | info
  | warning
  | success
  | analysis
deriving DecidableEq, Repr

/-- `AILog` from src/types.ts, without the random `id` and clock `timestamp`. -/
structure AILog where
  message : String
  kind : LogType
deriving DecidableEq, Repr

/-- Accumulate a maximal run of decimal digits from the front of a character
list, returning the accumulated value, the number of digits consumed, and the
rest of the list. -/
def parseDigitsAux : List Char → ℕ → ℕ → ℕ × ℕ × List Char
  | [], acc, cnt => (acc, cnt, [])
  | c :: cs, acc, cnt =>
    if c.isDigit then parseDigitsAux cs (acc * 10 + (c.toNat - 48)) (cnt + 1)
    else (acc, cnt, c :: cs)

/-- Model of the JS builtin `parseFloat` used by `handleManualLocation`:
skip leading whitespace, read an optional sign and the longest prefix of the
form `digits[.digits]` / `.digits`, and return `none` when no digit is read
(the NaN case).  Exponent suffixes and `Infinity`, which no claim exercises,
are not modelled. -/
def jsParseFloat (str : String) : Option ℚ :=
  let cs := str.toList.dropWhile (fun c => c == ' ' || c == '\t' || c == '\n')
  let signAndRest : Bool × List Char :=
    match cs with
    | '-' :: rest => (true, rest)
    | '+' :: rest => (false, rest)
    | _ => (false, cs)
  let ipart := parseDigitsAux signAndRest.2 0 0
  let fpart : ℕ × ℕ :=
    match ipart.2.2 with
    | '.' :: rest =>
      let f := parseDigitsAux rest 0 0
      (f.1, f.2.1)
    | _ => (0, 0)
  if ipart.2.1 = 0 ∧ fpart.2 = 0 then none
  else
    let mag : ℚ := (ipart.1 : ℚ) + (fpart.1 : ℚ) / (10 : ℚ) ^ fpart.2
    some (if signAndRest.1 then -mag else mag)

/-- Left-pad a digit string with zeros up to width `n`. -/
def padZeros (s : String) (n : ℕ) : String :=
  String.mk (List.replicate (n - s.length) '0') ++ s

/-- Model of JS `Number.prototype.toFixed(f)`: round `|q| * 10^f` half away
from zero, then print sign, integer part, and `f` fractional digits. -/
def toFixedQ (f : ℕ) (q : ℚ) : String :=
  let sgn := if q < 0 then "-" else ""
  let n : ℤ := ⌊|q| * (10 : ℚ) ^ f + 1 / 2⌋
  let ip := n / (10 : ℤ) ^ f
  let fp := (n % (10 : ℤ) ^ f).toNat
  if f = 0 then sgn ++ toString ip
  else sgn ++ toString ip ++ "." ++ padZeros (toString fp) f

/-- Model of JS `Math.round`: `⌊x + 0.5⌋`. -/
def jsRound (q : ℚ) : ℤ := ⌊q + 1 / 2⌋

/-- Rendering of a JS number as a string (`Number.prototype.toString`);
abstracted as six-decimal rendering, exact for the base coordinates.  No
claim depends on this text. -/
def jsNumToString (q : ℚ) : String := toFixedQ 6 q

/-- `BASE_LAT` constant (line 10 of the App component). -/
def BASE_LAT : ℚ := 40.785091

/-- `BASE_LNG` constant (line 11 of the App component). -/
def BASE_LNG : ℚ := -73.968285

/-- `HOSPITAL_LOC` constant (line 12 of the App component): Mount Sinai. -/
def HOSPITAL_LOC : Coordinate := { lat := 40.789125, lng := -73.954605 }

/-- The `useState` hooks of the App component gathered into one record. -/
structure AppState where
  view : AppView
  status : MissionStatus
  ambulancePos : Coordinate
  targetPos : Option Coordinate
  emergency : EmergencyDetails
  logs : List AILog
  speed : ℤ
  distance : String
  eta : String
  trafficState : TrafficLightState
  showTransModal : Bool
  manualLat : String
  manualLng : String
deriving DecidableEq, Repr

/-- The initial hook values of the App component (lines 16–37). -/
def initialState : AppState where
  view := .LOGIN
  status := .IDLE
  ambulancePos := { lat := BASE_LAT, lng := BASE_LNG }
  targetPos := none
  emergency :=
    { etype := "Cardiac Arrest"
      severity := "Critical"
      patientName := "John Doe"
      description := "Male, 55, chest pains, collapsed." }
  logs := []
  speed := 0
  distance := "0.0 km"
  eta := "--:--"
  trafficState := .RED
  showTransModal := false
  manualLat := jsNumToString BASE_LAT
  manualLng := jsNumToString BASE_LNG

/-- `addLog` helper (lines 40–48): append one entry to the log list. -/
def addLog (s : AppState) (message : String) (kind : LogType) : AppState :=
  { s with logs := s.logs ++ [{ message := message, kind := kind }] }

/-- `handleLogin` (lines 51–54). -/
def handleLogin (s : AppState) : AppState :=
  { addLog s "System initialized. User authenticated." .success with
      view := .DASHBOARD }

/-- `handleManualLocation` (lines 57–66): parse both input strings; on
success set the position and log, otherwise log a warning only. -/
def handleManualLocation (s : AppState) : AppState :=
  match jsParseFloat s.manualLat, jsParseFloat s.manualLng with
  | some lat, some lng =>
    addLog { s with ambulancePos := { lat := lat, lng := lng } }
      ("Manual coordinates set: " ++ toFixedQ 4 lat ++ ", " ++ toFixedQ 4 lng)
      .warning
  | _, _ => addLog s "Invalid coordinates entered." .warning

/-- `handleAutoLocation` (line 70): the unconditional log before the
geolocation request. -/
def autoLocationRequest (s : AppState) : AppState :=
  addLog s "Initiating satellite triangulation..." .info

/-- `handleAutoLocation` success callback (lines 73–82). -/
def autoLocationSuccess (s : AppState) (pos : Coordinate) : AppState :=
  addLog
    { s with
        ambulancePos := pos
        manualLat := jsNumToString pos.lat
        manualLng := jsNumToString pos.lng }
    ("Location locked: " ++ toFixedQ 4 pos.lat ++ ", " ++ toFixedQ 4 pos.lng)
    .success

/-- `handleAutoLocation` error callback (lines 83–85). -/
def autoLocationError (s : AppState) : AppState :=
  addLog s "GPS Signal weak. Defaulting to Base Station." .warning

/-- `handleAutoLocation` missing-geolocation branch (lines 87–89). -/
def geolocationOffline (s : AppState) : AppState :=
  addLog s "Geolocation module offline." .warning

/-- `startMission` (lines 93–110) up to the `await analyzeEmergency` call:
switch to the map view, set status `CALCULATING`, log, and pick the random
patient target.  `r1 r2` are the two `Math.random()` results. -/
def startMissionBegin (s : AppState) (r1 r2 : ℚ) : AppState :=
  { addLog { s with view := .MAP_NAVIGATION, status := .CALCULATING }
      "Mission parameters uploaded. Analyzing route..." .info with
      targetPos := some
        { lat := s.ambulancePos.lat + (r1 - 0.5) * 0.02
          lng := s.ambulancePos.lng + (r2 - 0.5) * 0.02 } }

/-- `startMission` (lines 104–109) after the `await analyzeEmergency` call
resolves with text `aiAnalysis`: log the analysis, then move to
`ENROUTE_PATIENT`, activate the green corridor and log the protocol. -/
def startMissionResume (s : AppState) (aiAnalysis : String) : AppState :=
  addLog
    { addLog s aiAnalysis .analysis with
        status := .ENROUTE_PATIENT
        trafficState := .GREEN_CORRIDOR_ACTIVE }
    "GREEN CORRIDOR PROTOCOL: ACTIVE. All signals preempted." .success

/-- `handleRouteFound` (lines 113–119): set the distance and ETA display
strings from the route summary and log. -/
def handleRouteFound (s : AppState) (totalDistance totalTime : ℚ) : AppState :=
  let distKm := toFixedQ 1 (totalDistance / 1000)
  let timeMin := jsRound (totalTime / 60)
  addLog
    { s with
        distance := distKm ++ " km"
        eta := toString timeMin ++ " min" }
    ("Route Calculated. Dist: " ++ distKm ++ "km, ETA: " ++
      toString timeMin ++ "min")
    .info

/-- `handlePositionUpdate` (lines 122–131): on a position tick, force speed
to 0 under a RED signal, otherwise simulate a leg-dependent speed.  `r` is
the `Math.random()` result. -/
def handlePositionUpdate (s : AppState) (pos : Coordinate) (r : ℚ) : AppState :=
  if s.trafficState = .RED then
    { s with speed := 0 }
  else
    let base : ℚ := if s.status = .ENROUTE_HOSPITAL then 80 else 50
    { s with speed := ⌊base + r * 20⌋ }

/-- `handleDistanceUpdate` (lines 134–137). -/
def handleDistanceUpdate (s : AppState) (meters : ℚ) : AppState :=
  { s with distance := toFixedQ 2 (meters / 1000) ++ " km" }

/-- `handleTrafficSignalUpdate` (lines 140–151): store the new state; on RED
log a braking warning and zero the speed; on `GREEN_CORRIDOR_ACTIVE` log the
override only when the previous (closure) state was RED or YELLOW. -/
def handleTrafficSignalUpdate (s : AppState) (newState : TrafficLightState) :
    AppState :=
  let s1 := { s with trafficState := newState }
  if newState = .RED then
    { addLog s1 "Intersection Alert: RED Signal Detected. Braking..." .warning
        with speed := 0 }
  else if newState = .GREEN_CORRIDOR_ACTIVE then
    if s.trafficState = .RED ∨ s.trafficState = .YELLOW then
      addLog s1 "Override Engaged: Green Wave Active. Accelerating." .success
    else s1
  else s1

/-- `handleArrival` (lines 154–178), synchronous part: gated on the closure
`status`; the patient leg moves to `AT_PATIENT` and opens the transport
modal, the hospital leg moves to `COMPLETED` (the scheduled `setTimeout`
continuation is `completedReset`), and any other status is a no-op. -/
def handleArrival (s : AppState) : AppState :=
  if s.status = .ENROUTE_PATIENT then
    { addLog { s with status := .AT_PATIENT, speed := 0, trafficState := .YELLOW }
        "Arrived at patient location. Medical team deploying." .info with
        showTransModal := true }
  else if s.status = .ENROUTE_HOSPITAL then
    addLog { s with status := .COMPLETED, speed := 0, trafficState := .GREEN }
      "Arrived at Hospital. Patient transfer initiated." .success
  else s

/-- The `setTimeout` continuation of the hospital branch of `handleArrival`
(lines 167–176), run 1000 ms later: back to the dashboard, status `IDLE`,
target cleared, display placeholders restored, and — because the closure
captured `targetPos` at the arrival render — the ambulance position set to
that captured target when it was non-null. -/
def completedReset (s : AppState) (captured : Option Coordinate) : AppState :=
  { s with
      view := .DASHBOARD
      status := .IDLE
      targetPos := none
      distance := "0.0 km"
      eta := "--:--"
      ambulancePos :=
        match captured with
        | some t => t
        | none => s.ambulancePos }

/-- `handleTransportToHospital` (lines 180–197): close the modal, snap the
ambulance to the old target (the patient pickup) when non-null, retarget the
hospital, enter the hospital leg with a GREEN signal, and append the reroute
and high-speed-protocol logs in order. -/
def handleTransportToHospital (s : AppState) : AppState :=
  addLog
    (addLog
      { s with
          showTransModal := false
          ambulancePos :=
            match s.targetPos with
            | some t => t
            | none => s.ambulancePos
          targetPos := some HOSPITAL_LOC
          status := .ENROUTE_HOSPITAL
          trafficState := .GREEN }
      "Patient secured. Rerouting to Trauma Center." .warning)
    "High Speed Protocol Engaged. Signals Syncing..." .success

/-- The Abort Mission button `onClick` (line 326): back to the dashboard with
status `IDLE`; no other field is touched. -/
def abortMission (s : AppState) : AppState :=
  { s with view := .DASHBOARD, status := .IDLE }

/-- One atomic event delivered to the component: every handler, callback and
input mutation of the App component, with the external/nondeterministic data
(random draws, geolocation fix, route summary, analysis text, captured
`setTimeout` closure value, form edits) universally quantified. -/
inductive Step : AppState → AppState → Prop
  | login (s : AppState) : Step s (handleLogin s)
  | manualLoc (s : AppState) : Step s (handleManualLocation s)
  | autoReq (s : AppState) : Step s (autoLocationRequest s)
  | autoOk (s : AppState) (pos : Coordinate) : Step s (autoLocationSuccess s pos)
  | autoErr (s : AppState) : Step s (autoLocationError s)
  | geoOff (s : AppState) : Step s (geolocationOffline s)
  | startBegin (s : AppState) (r1 r2 : ℚ) : Step s (startMissionBegin s r1 r2)
  | startResume (s : AppState) (a : String) : Step s (startMissionResume s a)
  | routeFound (s : AppState) (d t : ℚ) : Step s (handleRouteFound s d t)
  | posTick (s : AppState) (pos : Coordinate) (r : ℚ) (h0 : 0 ≤ r) (h1 : r < 1) :
      Step s (handlePositionUpdate s pos r)
  | distTick (s : AppState) (m : ℚ) : Step s (handleDistanceUpdate s m)
  | trafficEvt (s : AppState) (st : TrafficLightState) :
      Step s (handleTrafficSignalUpdate s st)
  | arrival (s : AppState) : Step s (handleArrival s)
  | completedTimer (s : AppState) (cap : Option Coordinate) :
      Step s (completedReset s cap)
  | beginTransport (s : AppState) : Step s (handleTransportToHospital s)
  | abort (s : AppState) : Step s (abortMission s)
  | configEmergency (s : AppState) (e : EmergencyDetails) :
      Step s { s with emergency := e }
  | editManualLat (s : AppState) (str : String) :
      Step s { s with manualLat := str }
  | editManualLng (s : AppState) (str : String) :
      Step s { s with manualLng := str }

/-- States reachable from the initial hook values by a sequence of events. -/
inductive Reachable : AppState → Prop
  | init : Reachable initialState
  | step {s s' : AppState} : Reachable s → Step s s' → Reachable s'

/-- The red-light invariant of the mission state: a RED stored signal forces
a zero displayed speed. -/
def RedZero (s : AppState) : Prop := s.trafficState = .RED → s.speed = 0

/-- Every single event preserves the red-light invariant. -/
theorem step_redZero {s s' : AppState} (hs : Step s s') (ih : RedZero s) :
    RedZero s' := by
  cases hs with
  | login => exact ih
  | manualLoc =>
    unfold RedZero handleManualLocation
    split <;> exact ih
  | autoReq => exact ih
  | autoOk pos => exact ih
  | autoErr => exact ih
  | geoOff => exact ih
  | startBegin r1 r2 => exact ih
  | startResume a => intro h; cases h
  | routeFound d t => exact ih
  | posTick pos r h0 h1 =>
    unfold RedZero handlePositionUpdate
    split
    · intro _; rfl
    · next hne => intro h; exact absurd h hne
  | distTick m => exact ih
  | trafficEvt st =>
    unfold RedZero handleTrafficSignalUpdate
    split
    · intro _; rfl
    · next hne =>
      split
      · split
        · intro h; exact absurd h (by simpa using hne)
        · intro h; exact absurd h (by simpa using hne)
      · intro h; exact absurd h hne
  | arrival =>
    unfold RedZero handleArrival
    split
    · intro _; rfl
    · split
      · intro _; rfl
      · exact ih
  | completedTimer cap => exact ih
  | beginTransport => intro h; cases h
  | abort => exact ih
  | configEmergency e => exact ih
  | editManualLat str => exact ih
  | editManualLng str => exact ih

/-- C1: for every reachable state of the mission — hence after every event
handler (position tick, traffic-signal event, arrival, begin-transport,
start-mission, completed-reset, and in the initial state) — a stored RED
traffic state forces speed 0; moreover every position tick handled while the
stored state is RED sets the speed to 0, and every traffic-signal event
carrying RED sets the speed to 0, regardless of the active mission leg. -/
theorem red_implies_speed_zero :
    (∀ s : AppState, Reachable s → s.trafficState = .RED → s.speed = 0) ∧
    (∀ (s : AppState) (pos : Coordinate) (r : ℚ), s.trafficState = .RED →
      (handlePositionUpdate s pos r).speed = 0) ∧
    (∀ s : AppState, (handleTrafficSignalUpdate s .RED).speed = 0) := by
  refine ⟨?_, ?_, ?_⟩
  · intro s h
    induction h with
    | init => intro _; rfl
    | step _ hs ih => exact step_redZero hs ih
  · intro s pos r h
    unfold handlePositionUpdate
    split
    · rfl
    · next hne => exact absurd h hne
  · intro s
    unfold handleTrafficSignalUpdate
    split
    · rfl
    · next hne => exact absurd rfl hne

/-- Witness for `red_implies_speed_zero` at concrete inputs: the initial
state (reachable, RED) and a RED-state position tick. -/
theorem red_implies_speed_zero_witness :
    initialState.speed = 0 ∧
    (handlePositionUpdate initialState ⟨0, 0⟩ (1 / 2)).speed = 0 :=
  ⟨red_implies_speed_zero.1 initialState Reachable.init rfl,
   red_implies_speed_zero.2.1 initialState ⟨0, 0⟩ (1 / 2) rfl⟩

/-- C2: the EnroutePatient → AtPatient transition fires exactly once per
patient leg.  The first Arrival delivered while status is `ENROUTE_PATIENT`
sets `AT_PATIENT`, zeroes the speed, sets the YELLOW traffic state, appends
exactly one log entry and raises the transport-confirmation modal; a second
Arrival delivered to the resulting state is a no-op, and more generally any
Arrival delivered while the status is neither enroute value leaves the state
unchanged (the handler is gated on the status at evaluation time). -/
theorem arrival_fires_once (s : AppState) :
    (s.status = .ENROUTE_PATIENT →
      (handleArrival s).status = .AT_PATIENT ∧
      (handleArrival s).speed = 0 ∧
      (handleArrival s).trafficState = .YELLOW ∧
      (handleArrival s).showTransModal = true ∧
      (handleArrival s).logs = s.logs ++
        [⟨"Arrived at patient location. Medical team deploying.", .info⟩] ∧
      handleArrival (handleArrival s) = handleArrival s) ∧
    (s.status ≠ .ENROUTE_PATIENT → s.status ≠ .ENROUTE_HOSPITAL →
      handleArrival s = s) := by
  constructor
  · intro h
    simp [handleArrival, addLog, h]
  · intro h1 h2
    simp [handleArrival, h1, h2]

/-- Witness for `arrival_fires_once`: a concrete mission that has just
entered the patient leg. -/
theorem arrival_fires_once_witness :
    (handleArrival
        (startMissionResume (startMissionBegin (handleLogin initialState) 0 0)
          "Dispatch analysis")).status = .AT_PATIENT ∧
    handleArrival
        (handleArrival
          (startMissionResume (startMissionBegin (handleLogin initialState) 0 0)
            "Dispatch analysis")) =
      handleArrival
        (startMissionResume (startMissionBegin (handleLogin initialState) 0 0)
          "Dispatch analysis") :=
  ⟨((arrival_fires_once
      (startMissionResume (startMissionBegin (handleLogin initialState) 0 0)
        "Dispatch analysis")).1 rfl).1,
   ((arrival_fires_once
      (startMissionResume (startMissionBegin (handleLogin initialState) 0 0)
        "Dispatch analysis")).1 rfl).2.2.2.2.2⟩

/-- C3: handling the begin-transport intent with a non-null target snaps the
ambulance to the prior target (the patient pickup point), retargets the
fixed process-wide hospital constant {lat: 40.789125, lng: -73.954605},
enters the hospital leg with a GREEN traffic state, and appends exactly two
log entries in order: the reroute warning then the high-speed-protocol
success. -/
theorem begin_transport_spec (s : AppState) (t : Coordinate)
    (h : s.targetPos = some t) :
    (handleTransportToHospital s).ambulancePos = t ∧
    (handleTransportToHospital s).targetPos = some HOSPITAL_LOC ∧
    HOSPITAL_LOC = ⟨40.789125, -73.954605⟩ ∧
    (handleTransportToHospital s).status = .ENROUTE_HOSPITAL ∧
    (handleTransportToHospital s).trafficState = .GREEN ∧
    (handleTransportToHospital s).logs = s.logs ++
      [⟨"Patient secured. Rerouting to Trauma Center.", .warning⟩,
       ⟨"High Speed Protocol Engaged. Signals Syncing...", .success⟩] := by
  refine ⟨?_, rfl, rfl, rfl, rfl, ?_⟩
  · simp [handleTransportToHospital, addLog, h]
  · simp [handleTransportToHospital, addLog]

/-- Witness for `begin_transport_spec`: a concrete mission whose random
patient target was drawn with both random values 0. -/
theorem begin_transport_spec_witness :
    (handleTransportToHospital
        (startMissionBegin (handleLogin initialState) 0 0)).ambulancePos =
      ⟨40.775091, -73.978285⟩ ∧
    (handleTransportToHospital
        (startMissionBegin (handleLogin initialState) 0 0)).targetPos =
      some HOSPITAL_LOC :=
  ⟨(begin_transport_spec (startMissionBegin (handleLogin initialState) 0 0)
      ⟨40.775091, -73.978285⟩ (by
        simp [startMissionBegin, handleLogin, addLog, initialState,
          BASE_LAT, BASE_LNG]
        norm_num)).1,
   (begin_transport_spec (startMissionBegin (handleLogin initialState) 0 0)
      ⟨40.775091, -73.978285⟩ (by
        simp [startMissionBegin, handleLogin, addLog, initialState,
          BASE_LAT, BASE_LNG]
        norm_num)).2.1⟩

/-- C4 counterexample: the source `startMission` awaits the emergency-analysis
call before progressing, so after its synchronous part has run (everything up
to the `await analyzeEmergency`) the mission is still `CALCULATING` with no
green corridor; the Calculating → EnroutePatient transition and the corridor
activation happen only in the continuation that runs once the analysis call
resolves — they are not independent of its completion. -/
theorem start_mission_blocks_on_analysis :
    (startMissionBegin initialState 0 0).status = .CALCULATING ∧
    (startMissionBegin initialState 0 0).status ≠ .ENROUTE_PATIENT ∧
    (startMissionBegin initialState 0 0).trafficState ≠
      .GREEN_CORRIDOR_ACTIVE ∧
    (startMissionResume (startMissionBegin initialState 0 0)
        "AI triage report").status = .ENROUTE_PATIENT ∧
    (startMissionResume (startMissionBegin initialState 0 0)
        "AI triage report").trafficState = .GREEN_CORRIDOR_ACTIVE :=
  ⟨rfl, by decide, by decide, rfl, rfl⟩

/-- C4 amended: after start-mission, the state stays `CALCULATING` (traffic
state and speed untouched) until the awaited emergency-analysis call
resolves; the resolution continuation first appends the analysis log and
then performs the Calculating → EnroutePatient transition together with the
corridor activation and its protocol log. -/
theorem enroute_transition_in_analysis_continuation
    (s : AppState) (r1 r2 : ℚ) (a : String) :
    (startMissionBegin s r1 r2).status = .CALCULATING ∧
    (startMissionBegin s r1 r2).trafficState = s.trafficState ∧
    (startMissionBegin s r1 r2).speed = s.speed ∧
    (startMissionResume s a).status = .ENROUTE_PATIENT ∧
    (startMissionResume s a).trafficState = .GREEN_CORRIDOR_ACTIVE ∧
    (startMissionResume s a).logs = s.logs ++
      [⟨a, .analysis⟩,
       ⟨"GREEN CORRIDOR PROTOCOL: ACTIVE. All signals preempted.", .success⟩] := by
  refine ⟨rfl, rfl, rfl, rfl, rfl, ?_⟩
  simp [startMissionResume, addLog]

/-- C5: an Arrival on the hospital leg moves the mission to `COMPLETED`, and
the scheduled reset continuation (running with the `targetPos` captured at
that render) then returns the mission to `IDLE` on the dashboard with the
target cleared, the distance and ETA displays back at their placeholders,
and the ambulance parked at the last target — the hospital — for the next
run. -/
theorem completed_auto_reset (s : AppState) (t : Coordinate)
    (hs : s.status = .ENROUTE_HOSPITAL) (ht : s.targetPos = some t) :
    (handleArrival s).status = .COMPLETED ∧
    (completedReset (handleArrival s) s.targetPos).status = .IDLE ∧
    (completedReset (handleArrival s) s.targetPos).view = .DASHBOARD ∧
    (completedReset (handleArrival s) s.targetPos).targetPos = none ∧
    (completedReset (handleArrival s) s.targetPos).distance = "0.0 km" ∧
    (completedReset (handleArrival s) s.targetPos).eta = "--:--" ∧
    (completedReset (handleArrival s) s.targetPos).ambulancePos = t := by
  rw [ht]
  refine ⟨?_, rfl, rfl, rfl, rfl, rfl, rfl⟩
  simp [handleArrival, addLog, hs]

/-- Witness for `completed_auto_reset`: a concrete mission on the hospital
leg, targeting the hospital. -/
theorem completed_auto_reset_witness :
    (completedReset
        (handleArrival (handleTransportToHospital (handleArrival
          (startMissionResume (startMissionBegin (handleLogin initialState) 0 0)
            "Dispatch analysis"))))
        (handleTransportToHospital (handleArrival
          (startMissionResume (startMissionBegin (handleLogin initialState) 0 0)
            "Dispatch analysis"))).targetPos).status = .IDLE ∧
    (completedReset
        (handleArrival (handleTransportToHospital (handleArrival
          (startMissionResume (startMissionBegin (handleLogin initialState) 0 0)
            "Dispatch analysis"))))
        (handleTransportToHospital (handleArrival
          (startMissionResume (startMissionBegin (handleLogin initialState) 0 0)
            "Dispatch analysis"))).targetPos).distance = "0.0 km" ∧
    (completedReset
        (handleArrival (handleTransportToHospital (handleArrival
          (startMissionResume (startMissionBegin (handleLogin initialState) 0 0)
            "Dispatch analysis"))))
        (handleTransportToHospital (handleArrival
          (startMissionResume (startMissionBegin (handleLogin initialState) 0 0)
            "Dispatch analysis"))).targetPos).ambulancePos = HOSPITAL_LOC :=
  ⟨(completed_auto_reset
      (handleTransportToHospital (handleArrival
        (startMissionResume (startMissionBegin (handleLogin initialState) 0 0)
          "Dispatch analysis"))) HOSPITAL_LOC rfl rfl).2.1,
   (completed_auto_reset
      (handleTransportToHospital (handleArrival
        (startMissionResume (startMissionBegin (handleLogin initialState) 0 0)
          "Dispatch analysis"))) HOSPITAL_LOC rfl rfl).2.2.2.2.1,
   (completed_auto_reset
      (handleTransportToHospital (handleArrival
        (startMissionResume (startMissionBegin (handleLogin initialState) 0 0)
          "Dispatch analysis"))) HOSPITAL_LOC rfl rfl).2.2.2.2.2.2⟩

/-- C6 counterexample: a full concrete mission run (both random draws 0, so
the patient pickup point is {40.775091, -73.978285}).  On the Completed →
Idle reset the ambulance position becomes the hospital constant, which is
not the patient pickup coordinate — the code comment itself says "Reset
position to hospital for next run". -/
theorem reset_position_is_not_patient_pickup :
    (startMissionBegin (handleLogin initialState) 0 0).targetPos =
      some ⟨40.775091, -73.978285⟩ ∧
    (completedReset
        (handleArrival (handleTransportToHospital (handleArrival
          (startMissionResume (startMissionBegin (handleLogin initialState) 0 0)
            "Dispatch analysis"))))
        (handleTransportToHospital (handleArrival
          (startMissionResume (startMissionBegin (handleLogin initialState) 0 0)
            "Dispatch analysis"))).targetPos).targetPos = none ∧
    (completedReset
        (handleArrival (handleTransportToHospital (handleArrival
          (startMissionResume (startMissionBegin (handleLogin initialState) 0 0)
            "Dispatch analysis"))))
        (handleTransportToHospital (handleArrival
          (startMissionResume (startMissionBegin (handleLogin initialState) 0 0)
            "Dispatch analysis"))).targetPos).ambulancePos = HOSPITAL_LOC ∧
    (completedReset
        (handleArrival (handleTransportToHospital (handleArrival
          (startMissionResume (startMissionBegin (handleLogin initialState) 0 0)
            "Dispatch analysis"))))
        (handleTransportToHospital (handleArrival
          (startMissionResume (startMissionBegin (handleLogin initialState) 0 0)
            "Dispatch analysis"))).targetPos).ambulancePos ≠
      (⟨40.775091, -73.978285⟩ : Coordinate) := by
  refine ⟨?_, rfl, rfl, ?_⟩
  · simp [startMissionBegin, handleLogin, addLog, initialState, BASE_LAT,
      BASE_LNG]
    norm_num
  · show HOSPITAL_LOC ≠ (⟨40.775091, -73.978285⟩ : Coordinate)
    simp only [HOSPITAL_LOC, ne_eq, Coordinate.mk.injEq, not_and]
    intro h
    norm_num at h

/-- C6 amended: on the Completed → Idle reset the target is cleared and the
ambulance position is reset to the captured last target — the hospital
location — not to the patient pickup point. -/
theorem reset_position_is_last_target (s : AppState)
    (h : s.targetPos = some HOSPITAL_LOC) :
    (completedReset (handleArrival s) s.targetPos).ambulancePos =
      HOSPITAL_LOC ∧
    (completedReset (handleArrival s) s.targetPos).targetPos = none := by
  rw [h]
  exact ⟨rfl, rfl⟩

/-- Witness for `reset_position_is_last_target`: the same concrete hospital
leg as in the counterexample. -/
theorem reset_position_is_last_target_witness :
    (completedReset
        (handleArrival (handleTransportToHospital (handleArrival
          (startMissionResume (startMissionBegin (handleLogin initialState) 0 0)
            "Dispatch analysis"))))
        (handleTransportToHospital (handleArrival
          (startMissionResume (startMissionBegin (handleLogin initialState) 0 0)
            "Dispatch analysis"))).targetPos).ambulancePos = HOSPITAL_LOC :=
  (reset_position_is_last_target
    (handleTransportToHospital (handleArrival
      (startMissionResume (startMissionBegin (handleLogin initialState) 0 0)
        "Dispatch analysis"))) rfl).1

/-- C7 counterexample: a concrete mission on the hospital leg with target
set and a nonzero displayed speed.  Aborting does return the status to
`IDLE`, but it leaves `targetPos` non-null and the speed at its previous
value — the abort button only sets the view and the status, it does not
clear the transient mission fields. -/
theorem abort_does_not_clear_fields :
    (abortMission
        (handlePositionUpdate (handleTransportToHospital (handleArrival
          (startMissionResume (startMissionBegin (handleLogin initialState) 0 0)
            "Dispatch analysis"))) ⟨0, 0⟩ (1 / 2))).status = .IDLE ∧
    (abortMission
        (handlePositionUpdate (handleTransportToHospital (handleArrival
          (startMissionResume (startMissionBegin (handleLogin initialState) 0 0)
            "Dispatch analysis"))) ⟨0, 0⟩ (1 / 2))).targetPos =
      some HOSPITAL_LOC ∧
    (abortMission
        (handlePositionUpdate (handleTransportToHospital (handleArrival
          (startMissionResume (startMissionBegin (handleLogin initialState) 0 0)
            "Dispatch analysis"))) ⟨0, 0⟩ (1 / 2))).targetPos ≠ none ∧
    (abortMission
        (handlePositionUpdate (handleTransportToHospital (handleArrival
          (startMissionResume (startMissionBegin (handleLogin initialState) 0 0)
            "Dispatch analysis"))) ⟨0, 0⟩ (1 / 2))).speed = 90 := by
  refine ⟨rfl, rfl, ?_, ?_⟩
  · intro h
    exact Option.noConfusion h
  · show ⌊(80 : ℚ) + 1 / 2 * 20⌋ = (90 : ℤ)
    rw [show (80 : ℚ) + 1 / 2 * 20 = ((90 : ℤ) : ℚ) by norm_num]
    exact Int.floor_intCast 90

/-- C7 amended: the abort intent is enabled in every state and always
returns the mission to `IDLE` on the dashboard, leaving the Emergency
configuration and the logs unchanged — but it clears nothing else: the
target, speed, distance, ETA, traffic state and position all keep their
previous values. -/
theorem abort_any_state (s : AppState) :
    (abortMission s).status = .IDLE ∧
    (abortMission s).view = .DASHBOARD ∧
    (abortMission s).emergency = s.emergency ∧
    (abortMission s).logs = s.logs ∧
    (abortMission s).targetPos = s.targetPos ∧
    (abortMission s).speed = s.speed ∧
    (abortMission s).distance = s.distance ∧
    (abortMission s).eta = s.eta ∧
    (abortMission s).trafficState = s.trafficState ∧
    (abortMission s).ambulancePos = s.ambulancePos :=
  ⟨rfl, rfl, rfl, rfl, rfl, rfl, rfl, rfl, rfl, rfl⟩

/-- C8: the traffic-signal handler, independent of the active mission leg:
a RED event forces speed 0, stores RED and appends exactly one braking
warning; a `GREEN_CORRIDOR_ACTIVE` event after a stored RED or YELLOW
appends exactly one override success log; a `GREEN_CORRIDOR_ACTIVE` event
after a stored GREEN or `GREEN_CORRIDOR_ACTIVE` only stores the new state
(so a repeated corridor event with no intervening RED/YELLOW appends
nothing); and a YELLOW or GREEN event only stores the new state. -/
theorem traffic_signal_update_spec (s : AppState) (st : TrafficLightState) :
    ((handleTrafficSignalUpdate s .RED).speed = 0 ∧
      (handleTrafficSignalUpdate s .RED).trafficState = .RED ∧
      (handleTrafficSignalUpdate s .RED).logs = s.logs ++
        [⟨"Intersection Alert: RED Signal Detected. Braking...", .warning⟩]) ∧
    ((s.trafficState = .RED ∨ s.trafficState = .YELLOW) →
      (handleTrafficSignalUpdate s .GREEN_CORRIDOR_ACTIVE).trafficState =
        .GREEN_CORRIDOR_ACTIVE ∧
      (handleTrafficSignalUpdate s .GREEN_CORRIDOR_ACTIVE).logs = s.logs ++
        [⟨"Override Engaged: Green Wave Active. Accelerating.", .success⟩]) ∧
    ((s.trafficState = .GREEN ∨ s.trafficState = .GREEN_CORRIDOR_ACTIVE) →
      handleTrafficSignalUpdate s .GREEN_CORRIDOR_ACTIVE =
        { s with trafficState := .GREEN_CORRIDOR_ACTIVE }) ∧
    (handleTrafficSignalUpdate
        (handleTrafficSignalUpdate s .GREEN_CORRIDOR_ACTIVE)
        .GREEN_CORRIDOR_ACTIVE).logs =
      (handleTrafficSignalUpdate s .GREEN_CORRIDOR_ACTIVE).logs ∧
    ((st = .YELLOW ∨ st = .GREEN) →
      handleTrafficSignalUpdate s st = { s with trafficState := st }) := by
  refine ⟨?_, ?_, ?_, ?_, ?_⟩
  · exact ⟨rfl, rfl, rfl⟩
  · rintro (h | h) <;> simp [handleTrafficSignalUpdate, addLog, h]
  · rintro (h | h) <;> simp [handleTrafficSignalUpdate, h]
  · cases hts : s.trafficState <;>
      simp [handleTrafficSignalUpdate, addLog, hts]
  · rintro (h | h) <;> simp [handleTrafficSignalUpdate, h]

/-- Witness for `traffic_signal_update_spec`: the initial state (stored
signal RED) receiving a corridor event, and a YELLOW event. -/
theorem traffic_signal_update_spec_witness :
    (handleTrafficSignalUpdate initialState .GREEN_CORRIDOR_ACTIVE).logs =
      initialState.logs ++
        [⟨"Override Engaged: Green Wave Active. Accelerating.", .success⟩] ∧
    handleTrafficSignalUpdate initialState .YELLOW =
      { initialState with trafficState := .YELLOW } :=
  ⟨((traffic_signal_update_spec initialState .YELLOW).2.1 (Or.inl rfl)).2,
   (traffic_signal_update_spec initialState .YELLOW).2.2.2.2 (Or.inl rfl)⟩

/-- C9: for any two position ticks handled under a non-RED signal with
random jitter in `[0,1)`, the hospital-leg tick computes a speed in
`[80, 99]`, any non-hospital-leg tick computes a speed in `[50, 69]`, and
hence every hospital-leg sample strictly exceeds every other sample. -/
theorem hospital_leg_speed_exceeds_patient_leg
    (s1 s2 : AppState) (p1 p2 : Coordinate) (r1 r2 : ℚ)
    (h10 : 0 ≤ r1) (h11 : r1 < 1) (h20 : 0 ≤ r2) (h21 : r2 < 1)
    (ht1 : s1.trafficState ≠ .RED) (ht2 : s2.trafficState ≠ .RED)
    (hs1 : s1.status = .ENROUTE_HOSPITAL)
    (hs2 : s2.status ≠ .ENROUTE_HOSPITAL) :
    80 ≤ (handlePositionUpdate s1 p1 r1).speed ∧
    (handlePositionUpdate s1 p1 r1).speed ≤ 99 ∧
    50 ≤ (handlePositionUpdate s2 p2 r2).speed ∧
    (handlePositionUpdate s2 p2 r2).speed ≤ 69 ∧
    (handlePositionUpdate s2 p2 r2).speed <
      (handlePositionUpdate s1 p1 r1).speed := by
  have e1 : (handlePositionUpdate s1 p1 r1).speed = ⌊(80 : ℚ) + r1 * 20⌋ := by
    simp [handlePositionUpdate, ht1, hs1]
  have e2 : (handlePositionUpdate s2 p2 r2).speed = ⌊(50 : ℚ) + r2 * 20⌋ := by
    simp [handlePositionUpdate, ht2, hs2]
  have b1 : (80 : ℤ) ≤ ⌊(80 : ℚ) + r1 * 20⌋ := by
    apply Int.le_floor.mpr
    push_cast
    linarith
  have b2 : ⌊(80 : ℚ) + r1 * 20⌋ ≤ 99 := by
    have hlt : ⌊(80 : ℚ) + r1 * 20⌋ < 100 := by
      apply Int.floor_lt.mpr
      push_cast
      linarith
    linarith
  have b3 : (50 : ℤ) ≤ ⌊(50 : ℚ) + r2 * 20⌋ := by
    apply Int.le_floor.mpr
    push_cast
    linarith
  have b4 : ⌊(50 : ℚ) + r2 * 20⌋ ≤ 69 := by
    have hlt : ⌊(50 : ℚ) + r2 * 20⌋ < 70 := by
      apply Int.floor_lt.mpr
      push_cast
      linarith
    linarith
  rw [e1, e2]
  refine ⟨b1, b2, b3, b4, ?_⟩
  linarith

/-- Witness for `hospital_leg_speed_exceeds_patient_leg`: a concrete
hospital-leg state and a concrete patient-leg state, both jittered by
`1/2`. -/
theorem hospital_leg_speed_exceeds_patient_leg_witness :
    (handlePositionUpdate
        (startMissionResume (startMissionBegin (handleLogin initialState) 0 0)
          "Dispatch analysis") ⟨0, 0⟩ (1 / 2)).speed <
      (handlePositionUpdate
        (handleTransportToHospital (handleArrival
          (startMissionResume (startMissionBegin (handleLogin initialState) 0 0)
            "Dispatch analysis"))) ⟨0, 0⟩ (1 / 2)).speed :=
  (hospital_leg_speed_exceeds_patient_leg
    (handleTransportToHospital (handleArrival
      (startMissionResume (startMissionBegin (handleLogin initialState) 0 0)
        "Dispatch analysis")))
    (startMissionResume (startMissionBegin (handleLogin initialState) 0 0)
      "Dispatch analysis")
    ⟨0, 0⟩ ⟨0, 0⟩ (1 / 2) (1 / 2)
    (by norm_num) (by norm_num) (by norm_num) (by norm_num)
    (fun h => TrafficLightState.noConfusion h)
    (fun h => TrafficLightState.noConfusion h)
    rfl
    (fun h => MissionStatus.noConfusion h)).2.2.2.2

/-- C10: the set-manual-location intent parses both coordinate strings; if
either fails to parse (the NaN case, e.g. inputs "abc"/"xyz") the whole
effect is exactly one appended warning log — the position and every other
field are unchanged; if both parse, the position is set to the parsed pair
and one formatted log entry is appended. -/
theorem manual_location_spec (s : AppState) (la ln : ℚ) :
    ((jsParseFloat s.manualLat = none ∨ jsParseFloat s.manualLng = none) →
      handleManualLocation s =
        addLog s "Invalid coordinates entered." .warning) ∧
    (jsParseFloat s.manualLat = some la → jsParseFloat s.manualLng = some ln →
      handleManualLocation s =
        addLog { s with ambulancePos := { lat := la, lng := ln } }
          ("Manual coordinates set: " ++ toFixedQ 4 la ++ ", " ++
            toFixedQ 4 ln)
          .warning) := by
  constructor
  · rintro (h | h)
    · simp [handleManualLocation, h]
    · rcases hx : jsParseFloat s.manualLat with _ | la2 <;>
        simp [handleManualLocation, hx, h]
  · intro h1 h2
    simp [handleManualLocation, h1, h2]

/-- Witness for `manual_location_spec`: the inputs "abc"/"xyz" are rejected
with exactly one warning log and no other mutation. -/
theorem manual_location_spec_witness :
    handleManualLocation
        { initialState with manualLat := "abc", manualLng := "xyz" } =
      addLog { initialState with manualLat := "abc", manualLng := "xyz" }
        "Invalid coordinates entered." .warning :=
  (manual_location_spec
      { initialState with manualLat := "abc", manualLng := "xyz" } 0 0).1
    (Or.inl (by decide))

end SmartAmbulance
